import Mathlib

/-!
Shallow embedding of `app.py` (directory-service API): the authentication
guard (`decode_authorization_header`, `recover_identity`, `validate_json`)
and the four mutating handlers (`node_register`, `session_stats_create`,
`node_send_stats`, `save_identity`), together with the persistent state
they touch.

Modelling notes, traceable to the source:
* The code is Python 2: `decode_authorization_header` catches `TypeError`
  from `base64.b64decode` (the Python-2 error class; Python 3 raises
  `binascii.Error`), and `tests/utils.py` interpolates the raw result of
  `base64.b64encode` into a format string, which is only correct on
  Python 2.  Consequently the comparison `None < 0` in
  `session_stats_create` is `True` (CPython 2 orders `None` below every
  number); `py2_lt0` below embeds that ordering.
* `models.py` is not present in the repository snapshot; the record shapes
  (`Node`, `Session`, `NodeAvailability`, `Identity`) are modelled from the
  spec's data-model table (entity keys and attributes).
* `signature.py` (`recover_public_address`) is not present either; per the
  spec it is a pure function of (message bytes, signature bytes), so every
  definition that needs it takes it as an explicit function argument
  `recover`.
* The SQLAlchemy store is modelled as association lists keyed by strings;
  `Model.query.get` is `dbGet`, and `db.session.add` + `commit` of a row
  with primary key `k` is `dbUpsert _ k _`.
* `json.dumps` of the proposal dict is deterministic and injective on the
  structured value, so `Node.proposal` stores the structured `Proposal`
  value itself rather than its serialization.
* Request bodies are kept as raw strings in the routing layer; the JSON
  codec (`json.loads` inside `is_json_dict`, `request.get_json`) is Python
  stdlib and is passed in as a function argument where a route needs it.
* Timestamps (`datetime.utcnow()`) are modelled as a `now : Nat` input to
  each handler; `request.remote_addr` as a `remote_addr : String` input.
-/

/-- An HTTP response: status code plus optional error message
(`jsonify(error=...)`); a success `jsonify({})` is status 200, no error. -/
structure Resp where
  status : Nat
  error : Option String
deriving DecidableEq, Repr

def respOk : Resp := ⟨200, none⟩

/-- Modelled from the spec: a service-proposal document. The registry only
inspects its `provider_id` field (absent ⇒ `None` from `proposal.get`);
every other field is opaque payload, collapsed into `rest`. -/
structure Proposal where
  provider_id : Option String
  rest : String
deriving DecidableEq, Repr

/-- Parsed JSON body of `/v1/node_register`: the result of
`payload.get('service_proposal', None)`. -/
structure NRBody where
  service_proposal : Option Proposal
deriving DecidableEq, Repr

/-- Parsed JSON body of `/v1/sessions/<k>/stats`: the results of
`payload.get('bytes_sent')` and `payload.get('bytes_received')`
(`none` = field absent, i.e. Python `None`). -/
structure StatsBody where
  bytes_sent : Option Int
  bytes_received : Option Int
deriving DecidableEq, Repr

/-- Modelled from the spec: a `Node` row minus its primary key
(provider identity); attributes per the data-model table: source IP,
proposal document, last-update timestamp. -/
structure NodeRec where
  ip : String
  proposal : Proposal
  updated_at : Nat
deriving DecidableEq, Repr

/-- Modelled from the spec: a `Session` row minus its primary key
(session identifier).  Counters are `Option Int` because the handler
assigns the payload's values verbatim; a freshly constructed row has
them unset (`none`) until assigned. -/
structure SessionRec where
  client_ip : String
  consumer_id : String
  client_bytes_sent : Option Int
  client_bytes_received : Option Int
  client_updated_at : Nat
deriving DecidableEq, Repr

/-- Association-list lookup: `Model.query.get(k)` on a keyed table. -/
def dbGet {α : Type} (l : List (String × α)) (k : String) : Option α :=
  match l with
  | [] => none
  | (k', v) :: rest => if k' = k then some v else dbGet rest k

/-- `db.session.add(row); db.session.commit()` for a row with primary key
`k`: replaces the row at `k` if present, otherwise appends it. -/
def dbUpsert {α : Type} (l : List (String × α)) (k : String) (v : α) :
    List (String × α) :=
  match l with
  | [] => [(k, v)]
  | (k', v') :: rest =>
    if k' = k then (k, v) :: rest else (k', v') :: dbUpsert rest k v

/-- The persistent store: the four tables of the data model.
`availabilities` rows are (node identity, recorded timestamp) — the
`NodeAvailability` append-only log; `identities` rows are
(account identifier, creation timestamp). -/
structure DB where
  nodes : List (String × NodeRec)
  sessions : List (String × SessionRec)
  availabilities : List (String × Nat)
  identities : List (String × Nat)
deriving DecidableEq, Repr

def emptyDB : DB := ⟨[], [], [], []⟩

/-- CPython 2's `v < 0` for `v` a counter read by `payload.get`: `None`
(a missing field) compares below every number, so `None < 0` is `True`. -/
def py2_lt0 : Option Int → Bool
  | none => true
  | some n => n < 0

/-- Python 2 `str.lower()` on a byte string: ASCII-only lower-casing. -/
def py_char_lower (c : Char) : Char :=
  if 'A' ≤ c ∧ c ≤ 'Z' then Char.ofNat (c.toNat + 32) else c

/-- Python 2 `str.lower()` lifted to whole strings. -/
def py_lower (s : String) : String := ⟨s.data.map py_char_lower⟩

/-- Worker for `py_split`: cut the character stream at every occurrence
of `sep`, keeping empty pieces (Python `split` with an explicit
separator). -/
def py_split_aux (sep : Char) : List Char → List Char → List (List Char)
  | [], acc => [acc.reverse]
  | c :: rest, acc =>
    if c = sep then acc.reverse :: py_split_aux sep rest []
    else py_split_aux sep rest (c :: acc)

/-- Python's `s.split(sep)` with an explicit one-character separator:
splits at *every* occurrence, keeping empty pieces
(`'a  b'.split(' ') == ['a', '', 'b']`, `''.split(' ') == ['']`). -/
def py_split (s : String) (sep : Char) : List String :=
  (py_split_aux sep s.data []).map (fun l => ⟨l⟩)

/-! ## Handlers (the business logic reached after the decorators) -/

/-- `node_register` (app.py lines 104–129), after `validate_json` and
`recover_identity` have run: `caller_identity` is the recovered identity,
`payload` the parsed JSON body.  `Node.query.get(node_key)` followed by
overwriting *every* non-key attribute and committing is an upsert of a
fresh record at key `node_key` — note the key is the payload's
`provider_id` as sent, while the mismatch check lower-cases it. -/
def node_register (caller_identity : String) (payload : NRBody)
    (remote_addr : String) (now : Nat) (db : DB) : Resp × DB :=
  match payload.service_proposal with
  | none => (⟨400, some "missing service_proposal"⟩, db)
  | some proposal =>
    match proposal.provider_id with
    | none => (⟨400, some "missing provider_id"⟩, db)
    | some node_key =>
      if py_lower node_key ≠ caller_identity then
        (⟨403, some "provider_id does not match current identity"⟩, db)
      else
        let node : NodeRec :=
          { ip := remote_addr, proposal := proposal, updated_at := now }
        (respOk, { db with nodes := dbUpsert db.nodes node_key node })

/-- `session_stats_create` (app.py lines 153–179), after the decorators.
The two counter guards use the Python-2 comparison (`py2_lt0`): a missing
field is `None`, which compares below `0`.  A fresh `Session(session_key)`
has unset counters/timestamp (they are always assigned before commit). -/
def session_stats_create (session_key caller_identity : String)
    (payload : StatsBody) (remote_addr : String) (now : Nat) (db : DB) :
    Resp × DB :=
  if py2_lt0 payload.bytes_sent then
    (⟨400, some "bytes_sent should not be negative"⟩, db)
  else if py2_lt0 payload.bytes_received then
    (⟨400, some "bytes_received should not be negative"⟩, db)
  else
    let session : SessionRec :=
      match dbGet db.sessions session_key with
      | some s => s
      | none =>
        { client_ip := remote_addr, consumer_id := caller_identity,
          client_bytes_sent := none, client_bytes_received := none,
          client_updated_at := 0 }
    if session.consumer_id ≠ caller_identity then
      (⟨403, some "session identity does not match current one"⟩, db)
    else
      let session' : SessionRec :=
        { session with client_bytes_sent := payload.bytes_sent,
                       client_bytes_received := payload.bytes_received,
                       client_updated_at := now }
      (respOk, { db with sessions := dbUpsert db.sessions session_key session' })

/-- `node_send_stats` (app.py lines 186–201), after the decorators:
looks up the Node keyed by the recovered identity, bumps its
`updated_at`, then appends one `NodeAvailability` row. -/
def node_send_stats (caller_identity : String) (now : Nat) (db : DB) :
    Resp × DB :=
  match dbGet db.nodes caller_identity with
  | none => (⟨400, some "node key not found"⟩, db)
  | some node =>
    let node' : NodeRec := { node with updated_at := now }
    let db1 : DB := { db with nodes := dbUpsert db.nodes caller_identity node' }
    (respOk,
     { db1 with availabilities := db1.availabilities ++ [(caller_identity, now)] })

/-- `save_identity` (app.py lines 207–216), after `recover_identity`
(note: this endpoint has no `validate_json` decorator). -/
def save_identity (caller_identity : String) (now : Nat) (db : DB) :
    Resp × DB :=
  match dbGet db.identities caller_identity with
  | some _ => (⟨403, some "identity already exists"⟩, db)
  | none =>
    (respOk, { db with identities := dbUpsert db.identities caller_identity now })

/-! ## Base64 (Python 2 `base64.b64decode` / `binascii.a2b_base64`) -/

/-- Value of a base64 alphabet character, `none` for non-alphabet bytes
(which `a2b_base64` silently discards). -/
def b64val (c : Char) : Option Nat :=
  if 'A' ≤ c ∧ c ≤ 'Z' then some (c.toNat - 65)
  else if 'a' ≤ c ∧ c ≤ 'z' then some (c.toNat - 71)
  else if '0' ≤ c ∧ c ≤ '9' then some (c.toNat + 4)
  else if c = '+' then some 62
  else if c = '/' then some 63
  else none

/-- Decode a filtered base64 character stream four characters at a time;
`error` models `binascii.Error('Incorrect padding')` (raised as
`TypeError` by Python 2's `base64.b64decode`). -/
def b64decodeCore : List Char → Except Unit (List Nat)
  | [] => .ok []
  | c1 :: c2 :: c3 :: c4 :: rest =>
    match b64val c1, b64val c2 with
    | some v1, some v2 =>
      if c3 = '=' then
        if c4 = '=' ∧ rest = [] then .ok [v1 * 4 + v2 / 16] else .error ()
      else
        match b64val c3 with
        | some v3 =>
          if c4 = '=' then
            if rest = [] then .ok [v1 * 4 + v2 / 16, (v2 % 16) * 16 + v3 / 4]
            else .error ()
          else
            match b64val c4 with
            | some v4 =>
              match b64decodeCore rest with
              | .ok tail =>
                .ok ([v1 * 4 + v2 / 16, (v2 % 16) * 16 + v3 / 4,
                      (v3 % 4) * 64 + v4] ++ tail)
              | .error e => .error e
            | none => .error ()
        | none => .error ()
    | _, _ => .error ()
  | _ => .error ()

/-- `base64.b64decode`: discard bytes outside the alphabet (keeping `=`),
then decode; fails on incorrect padding. -/
def b64decode (s : String) : Except Unit (List Nat) :=
  b64decodeCore (s.data.filter (fun c => (b64val c).isSome ∨ c = '='))

/-! ## Authentication guard -/

/-- The fixed text of the malformed-header error
(app.py lines 55–56). -/
def malformed_msg : String :=
  "invalid Authorization header value provided, correct format: Signature <signature_base64_encoded>"

/-- Steps 3–6 of the guard, once the header has been split into exactly
two parts (`authentication_type, signature_base64_encoded = parts`).
`recover` stands for `signature.recover_public_address` (module absent
from the snapshot; per the spec a pure function of message bytes and
signature bytes).  Error detail text appended by `format` is elided. -/
def auth_after_split (recover : String → List Nat → Except Unit String)
    (body authentication_type signature_base64_encoded : String) :
    Except String String :=
  if authentication_type ≠ "Signature" then
    .error "authentication type have to be Signature"
  else if signature_base64_encoded = "" then
    .error "signature was not provided"
  else
    match b64decode signature_base64_encoded with
    | .error _ => .error "signature must be base64 encoded"
    | .ok signature_bytes =>
      match recover body signature_bytes with
      | .error _ => .error "invalid signature format"
      | .ok addr => .ok (py_lower addr)

/-- `decode_authorization_header` (app.py lines 46–77).  Python's
`authorization.split(' ')` splits on *every* single space, keeping empty
pieces (`py_split`); the guard then demands exactly two parts.
`if not authorization` treats an empty header value like a missing one.
The recovered address is lower-cased. -/
def decode_authorization_header
    (recover : String → List Nat → Except Unit String)
    (headers : List (String × String)) (body : String) :
    Except String String :=
  match dbGet headers "Authorization" with
  | none => .error "missing Authorization in request header"
  | some authorization =>
    if authorization = "" then
      .error "missing Authorization in request header"
    else
      match py_split authorization ' ' with
      | [t, s] => auth_after_split recover body t s
      | _ => .error malformed_msg

/-! ## Routing layer: the decorators and the decorated endpoints -/

/-- An inbound request as the handlers see it: raw body bytes, header
map, peer address, and the wall-clock instant of handling
(`datetime.utcnow()`). -/
structure Request where
  body : String
  headers : List (String × String)
  remote_addr : String
  now : Nat

abbrev Handler := Request → DB → Resp × DB

/-- The `validate_json` decorator (app.py lines 37–43): rejects the
request with 400 before calling the wrapped function unless
`is_json_dict` (stdlib `json.loads` + dict check, passed as an argument)
accepts the raw body. -/
def validate_json (is_json_dict : String → Bool) (f : Handler) : Handler :=
  fun req db =>
    if is_json_dict req.body then f req db
    else (⟨400, some "payload must be a valid json"⟩, db)

/-- The `recover_identity` decorator (app.py lines 80–91): runs the
authentication guard; on failure answers 401 with the guard's message,
on success passes the recovered identity to the wrapped function. -/
def recover_identity (recover : String → List Nat → Except Unit String)
    (f : String → Handler) : Handler :=
  fun req db =>
    match decode_authorization_header recover req.headers req.body with
    | .error err => (⟨401, some err⟩, db)
    | .ok caller_identity => f caller_identity req db

/-- `POST /v1/node_register`: `@validate_json` then `@recover_identity`
then the handler (`parse` is `request.get_json`). -/
def node_register_route (isj : String → Bool)
    (recover : String → List Nat → Except Unit String)
    (parse : String → NRBody) : Handler :=
  validate_json isj (recover_identity recover
    (fun id req db => node_register id (parse req.body) req.remote_addr req.now db))

/-- `POST /v1/sessions/<session_key>/stats`: `@validate_json` then
`@recover_identity` then the handler. -/
def session_stats_route (isj : String → Bool)
    (recover : String → List Nat → Except Unit String)
    (parse : String → StatsBody) (session_key : String) : Handler :=
  validate_json isj (recover_identity recover
    (fun id req db =>
      session_stats_create session_key id (parse req.body) req.remote_addr req.now db))

/-- `POST /v1/node_send_stats`: `@validate_json` then `@recover_identity`
then the handler (the body is ignored by the handler). -/
def node_send_stats_route (isj : String → Bool)
    (recover : String → List Nat → Except Unit String) : Handler :=
  validate_json isj (recover_identity recover
    (fun id req db => node_send_stats id req.now db))

/-- `POST /v1/identities`: only `@recover_identity` — the source has no
`@validate_json` on this endpoint (app.py lines 205–206). -/
def save_identity_route
    (recover : String → List Nat → Except Unit String) : Handler :=
  recover_identity recover (fun id req db => save_identity id req.now db)

/-- Number of rows of a table carrying key `k`. -/
def countKey {α : Type} (l : List (String × α)) (k : String) : Nat :=
  (l.filter (fun p => p.1 = k)).length

/-! ## Store lemmas -/

theorem dbGet_upsert_self {α : Type} (l : List (String × α)) (k : String) (v : α) :
    dbGet (dbUpsert l k v) k = some v := by
  induction l with
  | nil => simp [dbGet, dbUpsert]
  | cons p rest ih =>
    obtain ⟨k', v'⟩ := p
    by_cases h : k' = k
    · simp [dbUpsert, h, dbGet]
    · simp [dbUpsert, h, dbGet, ih]

theorem dbGet_upsert_ne {α : Type} (l : List (String × α)) (k k' : String) (v : α)
    (h : k' ≠ k) : dbGet (dbUpsert l k v) k' = dbGet l k' := by
  induction l with
  | nil => simp [dbGet, dbUpsert, Ne.symm h]
  | cons p rest ih =>
    obtain ⟨k1, v1⟩ := p
    by_cases h1 : k1 = k
    · subst h1
      simp [dbUpsert, dbGet, Ne.symm h]
    · simp [dbUpsert, h1, dbGet, ih]

theorem dbUpsert_of_get_none {α : Type} (l : List (String × α)) (k : String) (v : α)
    (h : dbGet l k = none) : dbUpsert l k v = l ++ [(k, v)] := by
  induction l with
  | nil => simp [dbUpsert]
  | cons p rest ih =>
    obtain ⟨k1, v1⟩ := p
    by_cases h1 : k1 = k
    · simp [dbGet, h1] at h
    · simp [dbGet, h1] at h
      simp [dbUpsert, h1, ih h]

theorem countKey_of_get_none {α : Type} (l : List (String × α)) (k : String)
    (h : dbGet l k = none) : countKey l k = 0 := by
  induction l with
  | nil => simp [countKey]
  | cons p rest ih =>
    obtain ⟨k1, v1⟩ := p
    by_cases h1 : k1 = k
    · simp [dbGet, h1] at h
    · simp [dbGet, h1] at h
      simpa [countKey, h1] using ih h

theorem countKey_append_self {α : Type} (l : List (String × α)) (k : String) (v : α) :
    countKey (l ++ [(k, v)]) k = countKey l k + 1 := by
  simp [countKey, List.filter_append]

/-! ## Claim theorems -/

/-- C1 counterexample: `node_register` with recovered identity `0xa` and
payload `provider_id` `0xA` succeeds, yet no Node record is keyed by the
identity `0xa` — the record is keyed by the payload's `provider_id`
verbatim (`0xA`). -/
theorem C1_counterexample :
    (node_register "0xa" ⟨some ⟨some "0xA", "r"⟩⟩ "1.2.3.4" 5 emptyDB).1 = respOk ∧
    dbGet (node_register "0xa" ⟨some ⟨some "0xA", "r"⟩⟩ "1.2.3.4" 5 emptyDB).2.nodes "0xa" = none ∧
    dbGet (node_register "0xa" ⟨some ⟨some "0xA", "r"⟩⟩ "1.2.3.4" 5 emptyDB).2.nodes "0xA" =
      some ⟨"1.2.3.4", ⟨some "0xA", "r"⟩, 5⟩ := by
  decide

/-- C1 (amended): every successful `node_register` writes the Node record
keyed by the payload's `provider_id` as sent; that key lower-cases to the
signature-recovered identity of the writer (so it equals the identity
exactly when the payload already sends it lower-cased). -/
theorem C1_register_key_is_provider_id (caller_identity : String)
    (payload : NRBody) (remote_addr : String) (now : Nat) (db : DB)
    (h : (node_register caller_identity payload remote_addr now db).1 = respOk) :
    ∃ proposal node_key, payload.service_proposal = some proposal ∧
      proposal.provider_id = some node_key ∧
      py_lower node_key = caller_identity ∧
      dbGet (node_register caller_identity payload remote_addr now db).2.nodes node_key =
        some ⟨remote_addr, proposal, now⟩ := by
  rcases hsp : payload.service_proposal with _ | proposal
  · simp [node_register, hsp, respOk] at h
  · rcases hpid : proposal.provider_id with _ | node_key
    · simp [node_register, hsp, hpid, respOk] at h
    · by_cases hlc : py_lower node_key = caller_identity
      · refine ⟨proposal, node_key, ?_, ?_, hlc, ?_⟩
        · simp [hsp]
        · simp [hpid]
        · simp [node_register, hsp, hpid, hlc, dbGet_upsert_self]
      · simp [node_register, hsp, hpid, hlc, respOk] at h

/-- C1 witness: a concrete successful registration, with the key equal to
the sent `provider_id` and lower-casing to the identity. -/
theorem C1_witness :
    ∃ proposal node_key,
      (NRBody.mk (some ⟨some "0xB", "r"⟩)).service_proposal = some proposal ∧
      proposal.provider_id = some node_key ∧
      py_lower node_key = "0xb" ∧
      dbGet (node_register "0xb" ⟨some ⟨some "0xB", "r"⟩⟩ "9.9.9.9" 3 emptyDB).2.nodes node_key =
        some ⟨"9.9.9.9", proposal, 3⟩ :=
  C1_register_key_is_provider_id "0xb" ⟨some ⟨some "0xB", "r"⟩⟩ "9.9.9.9" 3 emptyDB (by decide)

/-- C2 counterexample: `/v1/identities` has no JSON pre-check — a request
whose body is not a JSON object, but which carries a well-formed signature
header, is not rejected with 400: it reaches the handler, returns 200 and
mutates state (creates the Identity record). -/
theorem C2_counterexample :
    (save_identity_route (fun _ _ => .ok "0xA")
        ⟨"not a json object", [("Authorization", "Signature AA==")], "1.2.3.4", 7⟩
        emptyDB).1 = respOk ∧
    (save_identity_route (fun _ _ => .ok "0xA")
        ⟨"not a json object", [("Authorization", "Signature AA==")], "1.2.3.4", 7⟩
        emptyDB).2.identities = [("0xa", 7)] := by
  decide

/-- C2 (amended): for the three routes wrapped in `validate_json`
(`node_register`, session stats, `node_send_stats`), a body rejected by
the JSON-object pre-check yields 400 with no state change, before
authentication and for any authentication outcome; the identities route
is not wrapped and runs authentication directly. -/
theorem C2_validate_json_before_auth (isj : String → Bool)
    (recover : String → List Nat → Except Unit String)
    (pNR : String → NRBody) (pS : String → StatsBody) (sk : String)
    (req : Request) (db : DB) (h : isj req.body = false) :
    node_register_route isj recover pNR req db =
      (⟨400, some "payload must be a valid json"⟩, db) ∧
    session_stats_route isj recover pS sk req db =
      (⟨400, some "payload must be a valid json"⟩, db) ∧
    node_send_stats_route isj recover req db =
      (⟨400, some "payload must be a valid json"⟩, db) := by
  refine ⟨?_, ?_, ?_⟩ <;>
    simp [node_register_route, session_stats_route, node_send_stats_route,
          validate_json, h]

/-- C2 witness: the three wrapped routes each answer 400 on a concrete
rejected body, leaving the store untouched. -/
theorem C2_witness :
    node_register_route (fun _ => false) (fun _ _ => .ok "0xa") (fun _ => ⟨none⟩)
      ⟨"###", [], "ip", 0⟩ emptyDB = (⟨400, some "payload must be a valid json"⟩, emptyDB) ∧
    session_stats_route (fun _ => false) (fun _ _ => .ok "0xa") (fun _ => ⟨none, none⟩) "s"
      ⟨"###", [], "ip", 0⟩ emptyDB = (⟨400, some "payload must be a valid json"⟩, emptyDB) ∧
    node_send_stats_route (fun _ => false) (fun _ _ => .ok "0xa")
      ⟨"###", [], "ip", 0⟩ emptyDB = (⟨400, some "payload must be a valid json"⟩, emptyDB) :=
  C2_validate_json_before_auth (fun _ => false) (fun _ _ => .ok "0xa")
    (fun _ => ⟨none⟩) (fun _ => ⟨none, none⟩) "s" ⟨"###", [], "ip", 0⟩ emptyDB rfl

/-- Steps 3–6 of the guard never produce the malformed-header error: their
error messages are the scheme, empty-signature, encoding and
signature-format ones, all distinct from `malformed_msg`. -/
theorem auth_after_split_ne_malformed
    (recover : String → List Nat → Except Unit String) (body t s : String) :
    auth_after_split recover body t s ≠ Except.error malformed_msg := by
  intro h
  unfold auth_after_split at h
  split at h
  · simp [malformed_msg] at h
  · split at h
    · simp [malformed_msg] at h
    · rcases hb : b64decode s with _ | bs
      · rw [hb] at h
        simp [malformed_msg] at h
      · rw [hb] at h
        rcases hr : recover body bs with _ | a
        · simp [hr, malformed_msg] at h
        · simp [hr] at h

/-- C3 counterexample: the header value `Signature a b` contains a space,
so under the claim the text before the first space would be the scheme and
`a b` the value token — the split would yield two tokens and no
malformed-credential failure.  The code splits on every space, obtains
three parts, and fails with the malformed-header error. -/
theorem C3_counterexample :
    decode_authorization_header (fun _ _ => Except.error ())
        [("Authorization", "Signature a b")] "" =
      Except.error malformed_msg := by
  rfl

/-- C3 (amended): the guard splits the header value on *every* space and
fails with the malformed-credential error exactly when the resulting list
of parts does not have length two (a non-empty header given) — so a value
with two or more spaces is rejected rather than parsed as scheme plus
remainder. -/
theorem C3_split_every_space (recover : String → List Nat → Except Unit String)
    (headers : List (String × String)) (body : String) :
    decode_authorization_header recover headers body = Except.error malformed_msg ↔
      ∃ a, dbGet headers "Authorization" = some a ∧ a ≠ "" ∧
        (py_split a ' ').length ≠ 2 := by
  unfold decode_authorization_header
  rcases hA : dbGet headers "Authorization" with _ | a
  · simp [malformed_msg]
  · by_cases ha : a = ""
    · simp [ha, malformed_msg]
    · simp only [ha, if_false, ite_false]
      rcases hsplit : py_split a ' ' with _ | ⟨t, _ | ⟨s, _ | ⟨u, rest⟩⟩⟩
      · simp [hsplit, ha]
      · simp [hsplit, ha]
      · simp [hsplit, ha, auth_after_split_ne_malformed recover body t s]
      · simp [hsplit, ha]

/-- The Python-2 counter guard passes exactly when the field is present
and non-negative. -/
theorem py2_lt0_eq_false_iff (x : Option Int) :
    py2_lt0 x = false ↔ ∃ m, x = some m ∧ 0 ≤ m := by
  cases x <;> simp [py2_lt0, not_lt]

/-- C4 counterexample: with session `s1` already owned by `0xa`, a report
from the different identity `0xb` does not always fail with 403 — here it
carries `bytes_sent = -1` and fails with 400 (the negative-counter guard
runs before the ownership check). -/
theorem C4_counterexample :
    session_stats_create "s1" "0xb" ⟨some (-1), some 0⟩ "ip2" 7
        ⟨[], [("s1", ⟨"ip1", "0xa", some 3, some 4, 5⟩)], [], []⟩ =
      (⟨400, some "bytes_sent should not be negative"⟩,
       ⟨[], [("s1", ⟨"ip1", "0xa", some 3, some 4, 5⟩)], [], []⟩) := by
  rfl

/-- C4 (amended): the first successful stats report from identity A on a
fresh session id creates the Session bound to `consumer_id = A`; every
subsequent report from B ≠ A fails — with 403 whenever its counters are
present and non-negative, with 400 otherwise — and in every case leaves
the whole store (hence A's record, counters and timestamp) unchanged. -/
theorem C4_session_ownership (S A B ip ip' : String) (p q : StatsBody)
    (t t' : Nat) (db : DB) (m n : Int)
    (hS : dbGet db.sessions S = none)
    (hps : p.bytes_sent = some m) (hm : 0 ≤ m)
    (hpr : p.bytes_received = some n) (hn : 0 ≤ n)
    (hBA : B ≠ A) :
    (session_stats_create S A p ip t db).1 = respOk ∧
    dbGet (session_stats_create S A p ip t db).2.sessions S =
      some ⟨ip, A, some m, some n, t⟩ ∧
    (session_stats_create S B q ip' t' (session_stats_create S A p ip t db).2).2 =
      (session_stats_create S A p ip t db).2 ∧
    ((∃ m' n', q.bytes_sent = some m' ∧ 0 ≤ m' ∧ q.bytes_received = some n' ∧ 0 ≤ n') →
      (session_stats_create S B q ip' t' (session_stats_create S A p ip t db).2).1.status = 403) ∧
    (¬ (∃ m' n', q.bytes_sent = some m' ∧ 0 ≤ m' ∧ q.bytes_received = some n' ∧ 0 ≤ n') →
      (session_stats_create S B q ip' t' (session_stats_create S A p ip t db).2).1.status = 400) := by
  have hmlt : ¬ (m < 0) := not_lt.mpr hm
  have hnlt : ¬ (n < 0) := not_lt.mpr hn
  have h1 : session_stats_create S A p ip t db =
      (respOk, { db with sessions := dbUpsert db.sessions S ⟨ip, A, some m, some n, t⟩ }) := by
    simp [session_stats_create, hps, hpr, py2_lt0, hmlt, hnlt, hS]
  rw [h1]
  have hget2 :
      dbGet (dbUpsert db.sessions S (⟨ip, A, some m, some n, t⟩ : SessionRec)) S =
        some ⟨ip, A, some m, some n, t⟩ := dbGet_upsert_self _ _ _
  have hAB : A ≠ B := Ne.symm hBA
  refine ⟨rfl, by simpa using hget2, ?_⟩
  cases hq1 : py2_lt0 q.bytes_sent with
  | true =>
    refine ⟨by simp [session_stats_create, hq1], ?_, ?_⟩
    · rintro ⟨m', n', hqs, hm', hqr, hn'⟩
      rw [hqs] at hq1
      simp [py2_lt0] at hq1
      omega
    · intro _
      simp [session_stats_create, hq1]
  | false =>
    cases hq2 : py2_lt0 q.bytes_received with
    | true =>
      refine ⟨by simp [session_stats_create, hq1, hq2], ?_, ?_⟩
      · rintro ⟨m', n', hqs, hm', hqr, hn'⟩
        rw [hqr] at hq2
        simp [py2_lt0] at hq2
        omega
      · intro _
        simp [session_stats_create, hq1, hq2]
    | false =>
      have h2 : session_stats_create S B q ip' t'
          ({ db with sessions := dbUpsert db.sessions S ⟨ip, A, some m, some n, t⟩ }) =
          (⟨403, some "session identity does not match current one"⟩,
           { db with sessions := dbUpsert db.sessions S ⟨ip, A, some m, some n, t⟩ }) := by
        simp [session_stats_create, hq1, hq2, hget2, hAB]
      refine ⟨by rw [h2], fun _ => by rw [h2], ?_⟩
      intro hno
      exfalso
      apply hno
      obtain ⟨m', hqs, hm'⟩ := (py2_lt0_eq_false_iff q.bytes_sent).mp hq1
      obtain ⟨n', hqr, hn'⟩ := (py2_lt0_eq_false_iff q.bytes_received).mp hq2
      exact ⟨m', n', hqs, hm', hqr, hn'⟩

/-- C4 witness: a concrete bound session, then a 403 for the other
identity's well-formed report and a 400 for its missing-counter report. -/
theorem C4_witness :
    (session_stats_create "s" "0xb" ⟨some 3, some 4⟩ "ip2" 6
        (session_stats_create "s" "0xa" ⟨some 1, some 2⟩ "ip1" 5 emptyDB).2).1.status = 403 ∧
    (session_stats_create "s" "0xb" ⟨none, some 4⟩ "ip2" 6
        (session_stats_create "s" "0xa" ⟨some 1, some 2⟩ "ip1" 5 emptyDB).2).1.status = 400 := by
  constructor
  · exact (C4_session_ownership "s" "0xa" "0xb" "ip1" "ip2" ⟨some 1, some 2⟩ ⟨some 3, some 4⟩ 5 6
        emptyDB 1 2 rfl rfl (by decide) rfl (by decide) (by decide)).2.2.2.1
      ⟨3, 4, rfl, by decide, rfl, by decide⟩
  · exact (C4_session_ownership "s" "0xa" "0xb" "ip1" "ip2" ⟨some 1, some 2⟩ ⟨none, some 4⟩ 5 6
        emptyDB 1 2 rfl rfl (by decide) rfl (by decide) (by decide)).2.2.2.2
      (by simp)

/-- C5: `node_send_stats` with no Node record for the identity answers
400 and writes nothing; with a Node record it answers 200, sets that
Node's `updated_at` to the current instant, appends exactly one
NodeAvailability row for the identity, and changes nothing else. -/
theorem C5_heartbeat (id : String) (t : Nat) (db : DB) :
    (dbGet db.nodes id = none →
      node_send_stats id t db = (⟨400, some "node key not found"⟩, db)) ∧
    (∀ node, dbGet db.nodes id = some node →
      node_send_stats id t db =
        (respOk, ⟨dbUpsert db.nodes id { node with updated_at := t },
                  db.sessions, db.availabilities ++ [(id, t)], db.identities⟩)) := by
  constructor
  · intro h
    simp [node_send_stats, h]
  · intro node h
    simp [node_send_stats, h]

/-- C5 witness: the 400 case on an empty store and the success case on a
store holding the node, evaluated concretely. -/
theorem C5_witness :
    node_send_stats "0xa" 9 emptyDB = (⟨400, some "node key not found"⟩, emptyDB) ∧
    node_send_stats "0xa" 9 ⟨[("0xa", ⟨"ip", ⟨some "0xa", "r"⟩, 1⟩)], [], [], []⟩ =
      (respOk, ⟨[("0xa", ⟨"ip", ⟨some "0xa", "r"⟩, 9⟩)], [], [("0xa", 9)], []⟩) := by
  constructor
  · exact (C5_heartbeat "0xa" 9 emptyDB).1 rfl
  · exact ((C5_heartbeat "0xa" 9 ⟨[("0xa", ⟨"ip", ⟨some "0xa", "r"⟩, 1⟩)], [], [], []⟩).2
      ⟨"ip", ⟨some "0xa", "r"⟩, 1⟩ (by decide)).trans (by decide)

/-- C6 counterexample: registering the same proposal twice from different
source addresses leaves records that differ in more than the timestamp —
the stored `ip` also changes (it is overwritten unconditionally). -/
theorem C6_counterexample :
    (dbGet (node_register "0xa" ⟨some ⟨some "0xa", "r"⟩⟩ "1.1.1.1" 1 emptyDB).2.nodes
        "0xa").map NodeRec.ip ≠
      (dbGet (node_register "0xa" ⟨some ⟨some "0xa", "r"⟩⟩ "2.2.2.2" 2
          (node_register "0xa" ⟨some ⟨some "0xa", "r"⟩⟩ "1.1.1.1" 1 emptyDB).2).2.nodes
        "0xa").map NodeRec.ip := by
  decide

/-- C6 (amended): re-registering the same proposal is idempotent up to
the update timestamp and the recorded source IP: the second call
succeeds, keeps the same key and the same stored proposal, and the final
store differs from the first call's store only by upserting that one key
with the second call's ip and timestamp. -/
theorem C6_register_idempotent (id : String) (payload : NRBody)
    (ip1 ip2 : String) (t1 t2 : Nat) (db : DB)
    (h : (node_register id payload ip1 t1 db).1 = respOk) :
    ∃ proposal node_key, payload.service_proposal = some proposal ∧
      proposal.provider_id = some node_key ∧
      (node_register id payload ip2 t2 (node_register id payload ip1 t1 db).2).1 = respOk ∧
      dbGet (node_register id payload ip1 t1 db).2.nodes node_key =
        some ⟨ip1, proposal, t1⟩ ∧
      dbGet (node_register id payload ip2 t2 (node_register id payload ip1 t1 db).2).2.nodes
          node_key = some ⟨ip2, proposal, t2⟩ ∧
      (node_register id payload ip2 t2 (node_register id payload ip1 t1 db).2).2 =
        { (node_register id payload ip1 t1 db).2 with
            nodes := dbUpsert (node_register id payload ip1 t1 db).2.nodes node_key
              ⟨ip2, proposal, t2⟩ } := by
  rcases hsp : payload.service_proposal with _ | proposal
  · simp [node_register, hsp, respOk] at h
  · rcases hpid : proposal.provider_id with _ | node_key
    · simp [node_register, hsp, hpid, respOk] at h
    · by_cases hlc : py_lower node_key = id
      · refine ⟨proposal, node_key, ?_, ?_, ?_, ?_, ?_, ?_⟩
        · simp [hsp]
        · simp [hpid]
        · simp [node_register, hsp, hpid, hlc]
        · simp [node_register, hsp, hpid, hlc, dbGet_upsert_self]
        · simp [node_register, hsp, hpid, hlc, dbGet_upsert_self]
        · simp [node_register, hsp, hpid, hlc]
      · simp [node_register, hsp, hpid, hlc, respOk] at h

/-- C6 witness: a concrete double registration; the second store differs
from the first only at the registered key's ip/timestamp. -/
theorem C6_witness :
    ∃ proposal node_key,
      (NRBody.mk (some ⟨some "0xa", "r"⟩)).service_proposal = some proposal ∧
      proposal.provider_id = some node_key ∧
      (node_register "0xa" ⟨some ⟨some "0xa", "r"⟩⟩ "2.2.2.2" 2
          (node_register "0xa" ⟨some ⟨some "0xa", "r"⟩⟩ "1.1.1.1" 1 emptyDB).2).1 = respOk ∧
      dbGet (node_register "0xa" ⟨some ⟨some "0xa", "r"⟩⟩ "1.1.1.1" 1 emptyDB).2.nodes node_key =
        some ⟨"1.1.1.1", proposal, 1⟩ ∧
      dbGet (node_register "0xa" ⟨some ⟨some "0xa", "r"⟩⟩ "2.2.2.2" 2
          (node_register "0xa" ⟨some ⟨some "0xa", "r"⟩⟩ "1.1.1.1" 1 emptyDB).2).2.nodes
        node_key = some ⟨"2.2.2.2", proposal, 2⟩ ∧
      (node_register "0xa" ⟨some ⟨some "0xa", "r"⟩⟩ "2.2.2.2" 2
          (node_register "0xa" ⟨some ⟨some "0xa", "r"⟩⟩ "1.1.1.1" 1 emptyDB).2).2 =
        { (node_register "0xa" ⟨some ⟨some "0xa", "r"⟩⟩ "1.1.1.1" 1 emptyDB).2 with
            nodes := dbUpsert
              (node_register "0xa" ⟨some ⟨some "0xa", "r"⟩⟩ "1.1.1.1" 1 emptyDB).2.nodes
              node_key ⟨"2.2.2.2", proposal, 2⟩ } :=
  C6_register_idempotent "0xa" ⟨some ⟨some "0xa", "r"⟩⟩ "1.1.1.1" "2.2.2.2" 1 2 emptyDB
    (by decide)

/-- C7: a stats report carrying a negative `bytes_sent` or a negative
`bytes_received` fails with 400 and performs no write: the store is
returned unchanged. -/
theorem C7_negative_counter (S A ip : String) (p : StatsBody) (t : Nat) (db : DB)
    (h : (∃ n, p.bytes_sent = some n ∧ n < 0) ∨
         (∃ n, p.bytes_received = some n ∧ n < 0)) :
    (session_stats_create S A p ip t db).1.status = 400 ∧
    (session_stats_create S A p ip t db).2 = db := by
  cases hq1 : py2_lt0 p.bytes_sent with
  | true => simp [session_stats_create, hq1]
  | false =>
    cases hq2 : py2_lt0 p.bytes_received with
    | true => simp [session_stats_create, hq1, hq2]
    | false =>
      exfalso
      rcases h with ⟨n, hn, hneg⟩ | ⟨n, hn, hneg⟩
      · rw [hn] at hq1
        simp [py2_lt0] at hq1
        omega
      · rw [hn] at hq2
        simp [py2_lt0] at hq2
        omega

/-- C7 witness: `bytes_sent = -1` on a fresh store: 400 and no write. -/
theorem C7_witness :
    (session_stats_create "s" "0xa" ⟨some (-1), some 0⟩ "ip" 4 emptyDB).1.status = 400 ∧
    (session_stats_create "s" "0xa" ⟨some (-1), some 0⟩ "ip" 4 emptyDB).2 = emptyDB :=
  C7_negative_counter "s" "0xa" "ip" ⟨some (-1), some 0⟩ 4 emptyDB
    (Or.inl ⟨-1, rfl, by decide⟩)

/-- C8: the identity claim is write-once — the first claim creates
exactly one Identity record (and touches nothing else); a second claim
for the same identity answers 403 and changes nothing. -/
theorem C8_identity_write_once (I : String) (t t' : Nat) (db : DB)
    (h : dbGet db.identities I = none) :
    (save_identity I t db).1 = respOk ∧
    (save_identity I t db).2.identities = db.identities ++ [(I, t)] ∧
    countKey (save_identity I t db).2.identities I = 1 ∧
    (save_identity I t db).2.nodes = db.nodes ∧
    (save_identity I t db).2.sessions = db.sessions ∧
    (save_identity I t db).2.availabilities = db.availabilities ∧
    save_identity I t' (save_identity I t db).2 =
      (⟨403, some "identity already exists"⟩, (save_identity I t db).2) := by
  have h1 : save_identity I t db =
      (respOk, { db with identities := dbUpsert db.identities I t }) := by
    simp [save_identity, h]
  rw [h1]
  have happ := dbUpsert_of_get_none db.identities I t h
  refine ⟨rfl, by simp [happ], ?_, rfl, rfl, rfl, ?_⟩
  · simp [happ, countKey_append_self, countKey_of_get_none db.identities I h]
  · simp [save_identity, dbGet_upsert_self]

/-- C8 witness: claim `0xa` on an empty store, then claim it again. -/
theorem C8_witness :
    (save_identity "0xa" 1 emptyDB).1 = respOk ∧
    (save_identity "0xa" 1 emptyDB).2.identities = [("0xa", 1)] ∧
    countKey (save_identity "0xa" 1 emptyDB).2.identities "0xa" = 1 ∧
    save_identity "0xa" 2 (save_identity "0xa" 1 emptyDB).2 =
      (⟨403, some "identity already exists"⟩, (save_identity "0xa" 1 emptyDB).2) := by
  have h := C8_identity_write_once "0xa" 1 2 emptyDB rfl
  exact ⟨h.1, h.2.1, h.2.2.1, h.2.2.2.2.2.2⟩

/-- C9: the authentication guard is a pure function of the request body
bytes and the `Authorization` header value — two runs on any two header
maps that agree on that header, with the same body and the same (pure)
recovery function, produce identical outcomes, with no dependence on the
store. -/
theorem C9_guard_deterministic (recover : String → List Nat → Except Unit String)
    (h1 h2 : List (String × String)) (body : String)
    (hA : dbGet h1 "Authorization" = dbGet h2 "Authorization") :
    decode_authorization_header recover h1 body =
      decode_authorization_header recover h2 body := by
  unfold decode_authorization_header
  rw [hA]

/-- C9 witness: two header maps differing in an unrelated header but
agreeing on `Authorization` give the same outcome. -/
theorem C9_witness :
    decode_authorization_header (fun _ _ => Except.ok "0xAB")
        [("Authorization", "Signature AA=="), ("X-Other", "y")] "m" =
      decode_authorization_header (fun _ _ => Except.ok "0xAB")
        [("Authorization", "Signature AA==")] "m" :=
  C9_guard_deterministic (fun _ _ => Except.ok "0xAB")
    [("Authorization", "Signature AA=="), ("X-Other", "y")]
    [("Authorization", "Signature AA==")] "m" (by decide)

/-- C10 counterexample: a stats body lacking `bytes_sent` does take the
documented 400 negative-counter branch — under Python 2, `None < 0` is
`True`, so the guard answers 400 `bytes_sent should not be negative`
rather than falling into the generic error path. -/
theorem C10_counterexample :
    session_stats_create "s1" "0xa" ⟨none, some 5⟩ "ip" 3 emptyDB =
      (⟨400, some "bytes_sent should not be negative"⟩, emptyDB) := by
  rfl

/-- C10 (amended): a stats report whose body lacks `bytes_sent` or
`bytes_received` compares `None` against `0`, which in Python 2 is
`True`, so the request takes the 400 negative-counter branch (never the
ownership branch and never the generic error path), and no Session
record is created or modified. -/
theorem C10_missing_counter (S A ip : String) (p : StatsBody) (t : Nat) (db : DB)
    (h : p.bytes_sent = none ∨ p.bytes_received = none) :
    (session_stats_create S A p ip t db).1.status = 400 ∧
    ((session_stats_create S A p ip t db).1.error =
        some "bytes_sent should not be negative" ∨
     (session_stats_create S A p ip t db).1.error =
        some "bytes_received should not be negative") ∧
    (session_stats_create S A p ip t db).2 = db := by
  cases hq1 : py2_lt0 p.bytes_sent with
  | true => simp [session_stats_create, hq1]
  | false =>
    rcases h with hbs | hbr
    · rw [hbs] at hq1
      simp [py2_lt0] at hq1
    · have hq2 : py2_lt0 p.bytes_received = true := by rw [hbr]; rfl
      simp [session_stats_create, hq1, hq2]

/-- C10 witness: a body missing `bytes_received` gets the 400
negative-counter response and no write. -/
theorem C10_witness :
    (session_stats_create "s" "0xa" ⟨some 5, none⟩ "ip" 3 emptyDB).1.status = 400 ∧
    ((session_stats_create "s" "0xa" ⟨some 5, none⟩ "ip" 3 emptyDB).1.error =
        some "bytes_sent should not be negative" ∨
     (session_stats_create "s" "0xa" ⟨some 5, none⟩ "ip" 3 emptyDB).1.error =
        some "bytes_received should not be negative") ∧
    (session_stats_create "s" "0xa" ⟨some 5, none⟩ "ip" 3 emptyDB).2 = emptyDB :=
  C10_missing_counter "s" "0xa" "ip" ⟨some 5, none⟩ 3 emptyDB (Or.inr rfl)
